import Mathlib

/-!
Shallow embedding of the hudorBot moderation engine (`bot.go` plus the
message templates file).  Chat IDs and account IDs are `Int` (they are
`int64`/`int` in Go and never overflow in any flow here).  The redis store
is a `Store` record; every store or gateway call that can fail in Go takes
its outcome from an environment record, and `logrus.Fatal` (which exits the
whole process) is modelled by the `FlowExit.fatal` result.
-/

namespace Hudor

/-- Group settings stored per chat, mirroring the Go struct `groupSettings`
(`IsActive`, `ShowWarn`, `Limit`, `Creator`, `Title`, `Description`). -/
structure GroupSettings where
  isActive : Bool
  showWarn : Bool
  limit : Int
  creator : Int
  title : String
  description : String
deriving Repr, DecidableEq

/-- The external key-value store (redis) as seen through the accessor layer:
settings hash per chat, whitelist set per chat, admin-group set per creator,
warn counter per (chat, user) pair with absence read as 0. -/
structure Store where
  settings : Int → Option GroupSettings
  whitelist : Int → Int → Bool
  adminGroups : Int → Int → Bool
  warns : Int → Int → Nat

/-- Outcome of one Telegram API call: the platform response fields `Ok` and
`ErrorCode` together with the transport-level error, mirroring the pair
`(response, err)` returned by the client library. -/
structure ApiOutcome where
  ok : Bool
  errorCode : Int
  err : Option String
deriving Repr, DecidableEq

/-- The `kickUser` wrapper of `bot.go`: a response with error code 400 is
classified as permission denial `(false, nil)`; any other response passes
the response flag and the transport error through unchanged. -/
def kickUser (o : ApiOutcome) : Bool × Option String :=
  if o.errorCode = 400 then (false, none) else (o.ok, o.err)

/-- The `deleteMessage` wrapper of `bot.go`: the same classification rule as
`kickUser`. -/
def deleteMessage (o : ApiOutcome) : Bool × Option String :=
  if o.errorCode = 400 then (false, none) else (o.ok, o.err)

/-- Modelled from the spec: `isGroupActive` (the store-accessor source file
is not under `src/`): a chat is active iff its settings exist with the
`isActive` flag set; an uninitialized chat reads as inactive. -/
def isGroupActive (st : Store) (chatID : Int) : Bool :=
  (st.settings chatID).elim false (·.isActive)

/-- Modelled from the spec: `changeGroupActiveStatus` persists the `isActive`
flag of the existing settings hash of the chat. -/
def changeGroupActiveStatus (st : Store) (chatID : Int) (b : Bool) : Store :=
  { st with settings := fun c =>
      if c = chatID then (st.settings c).map (fun s => { s with isActive := b })
      else st.settings c }

/-- Modelled from the spec: `incrementMemberWarns` atomically increments the
warn counter of `(chatID, userID)` (absent counter read as 0) and returns
the new value. -/
def incrementMemberWarns (st : Store) (chatID userID : Int) : Store × Nat :=
  let w := st.warns chatID userID + 1
  ({ st with warns := fun c u => if c = chatID ∧ u = userID then w else st.warns c u }, w)

/-- Modelled from the spec: `findGroupByID` reads the settings hash of the
chat; absence means the chat is uninitialized. -/
def findGroupByID (st : Store) (chatID : Int) : Option GroupSettings :=
  st.settings chatID

/-- An `SAdd` of one account into a chat whitelist. -/
def whitelistAdd (st : Store) (chatID userID : Int) : Store :=
  { st with whitelist := fun c u =>
      if c = chatID ∧ u = userID then true else st.whitelist c u }

/-- A chat administrator as returned by the gateway, with the owner role. -/
structure ChatMember where
  id : Int
  isCreator : Bool
deriving Repr, DecidableEq

/-- Modelled from the spec: `findCreator` locates the owner-role
administrator among the chat administrators. -/
def findCreator (admins : List ChatMember) : Option ChatMember :=
  admins.find? (·.isCreator)

/-- A joined, departing, or sending Telegram account. -/
structure TgUser where
  id : Int
  userName : String
  isBot : Bool
deriving Repr, DecidableEq

/-- The fields of the triggering message that the engine reads. -/
structure MsgCtx where
  chatID : Int
  fromID : Int
  messageID : Int
  chatTitle : String
  chatDescription : String
deriving Repr, DecidableEq

/-- Observable gateway-facing actions a flow performs, in order. -/
inductive Action
  | sendIntro (chat : Int)
  | sendCannotOperate (chat : Int)
  | leaveChat (chat : Int)
  | whitelistNotice (chat : Int) (replyTo : Int) (userName : String)
  | memberCheck (chat : Int) (user : Int)
  | kickAttempt (chat : Int) (user : Int)
  | warnNotice (chat : Int) (current : Int) (limit : Int)
  | deleteMsgAttempt (chat : Int) (msg : Int)
deriving Repr, DecidableEq

/-- How a flow ends: `fatal` models `logrus.Fatal`, which logs and then
exits the whole process with status 1. -/
inductive FlowExit
  | normal
  | fatal
deriving Repr, DecidableEq

/-- Failure injections for the store and gateway calls made on behalf of one
joined account in `processNewUsers`. -/
structure UserEnv where
  sAddErr : Bool
  sIsMemberErr : Bool
  kickBotApi : ApiOutcome
  deactErr : Bool
  incrErr : Bool
  kickHumanApi : ApiOutcome
  deactErr2 : Bool
  delWarnErr : Bool
deriving Repr, DecidableEq

/-- Lines 201–235 of `bot.go`: after the joined account was successfully
removed, increment the warn counter of the originating actor and apply the
warn-limit policy. -/
def warnPhase (m : MsgCtx) (set : GroupSettings) (env : UserEnv) (st : Store) :
    Store × List Action × FlowExit :=
  if env.incrErr then (st, [], .fatal)
  else
    let p := incrementMemberWarns st m.chatID m.fromID
    if (p.2 : Int) ≥ set.limit then
      let tr := [Action.kickAttempt m.chatID m.fromID]
      match kickUser env.kickHumanApi with
      | (_, some _) => (p.1, tr, .normal)
      | (false, none) =>
        if env.deactErr2 then (p.1, tr, .fatal)
        else (changeGroupActiveStatus p.1 m.chatID false, tr, .normal)
      | (true, none) =>
        if env.delWarnErr then (p.1, tr, .fatal)
        else ({ p.1 with warns := fun c u =>
            if c = m.chatID ∧ u = m.fromID then 0 else p.1.warns c u }, tr, .normal)
    else if set.showWarn then
      (p.1, [Action.warnNotice m.chatID (p.2 : Int) set.limit], .normal)
    else (p.1, [], .normal)

/-- The body of the second loop of `processNewUsers` (lines 141–236 of
`bot.go`) for one joined account `u`. -/
def processUser (selfID : Int) (m : MsgCtx) (set : GroupSettings) (env : UserEnv)
    (st : Store) (u : TgUser) : Store × List Action × FlowExit :=
  if u.id = selfID then (st, [], .normal)
  else if m.fromID = set.creator then
    if env.sAddErr then (st, [], .fatal)
    else if st.whitelist m.chatID u.id then (whitelistAdd st m.chatID u.id, [], .normal)
    else (whitelistAdd st m.chatID u.id,
      [Action.whitelistNotice m.chatID m.messageID u.userName], .normal)
  else if !set.isActive then (st, [], .normal)
  else if env.sIsMemberErr then (st, [Action.memberCheck m.chatID u.id], .fatal)
  else if st.whitelist m.chatID u.id then (st, [Action.memberCheck m.chatID u.id], .normal)
  else
    let tr0 := [Action.memberCheck m.chatID u.id, Action.kickAttempt m.chatID u.id]
    match kickUser env.kickBotApi with
    | (_, some _) => (st, tr0, .normal)
    | (false, none) =>
      if env.deactErr then (st, tr0, .fatal)
      else (changeGroupActiveStatus st m.chatID false, tr0, .normal)
    | (true, none) =>
      let r := warnPhase m set env st
      (r.1, tr0 ++ r.2.1, r.2.2)

/-- Failure injections for the gateway and store calls of `initGroup`. -/
structure InitEnv where
  adminsRes : Except Unit (List ChatMember)
  pipeErr : Bool

/-- Result of `initGroup`: process-fatal, no settings created, or the
freshly written settings. -/
inductive InitRes
  | fatal
  | noSettings
  | ok (s : GroupSettings)
deriving Repr, DecidableEq

/-- `initGroup` of `bot.go`: fetch administrators, send the introduction,
locate the creator, then atomically (one pipeline) add the chat to the
creator's admin-group set and write the default settings hash.  The
pipeline is modelled as an all-or-nothing batch, per the spec's store
interface. -/
def initGroup (m : MsgCtx) (env : InitEnv) (st : Store) :
    Store × List Action × InitRes :=
  match env.adminsRes with
  | .error _ => (st, [], .noSettings)
  | .ok admins =>
    match findCreator admins with
    | none =>
      (st, [Action.sendIntro m.chatID, Action.sendCannotOperate m.chatID,
            Action.leaveChat m.chatID], .noSettings)
    | some c =>
      let set : GroupSettings :=
        { isActive := false, showWarn := true, limit := 3,
          creator := c.id, title := m.chatTitle, description := m.chatDescription }
      if env.pipeErr then (st, [Action.sendIntro m.chatID], .fatal)
      else
        ({ st with
            adminGroups := fun a g =>
              if a = c.id ∧ g = m.chatID then true else st.adminGroups a g,
            settings := fun g => if g = m.chatID then some set else st.settings g },
         [Action.sendIntro m.chatID], .ok set)

/-- Result of the first loop of `processNewUsers`: process-fatal,
early return because `initGroup` produced no settings, or continue with the
(possibly refreshed) settings. -/
inductive Loop1Res
  | fatal
  | stop
  | cont (s : Option GroupSettings)
deriving Repr, DecidableEq

/-- The first loop of `processNewUsers` (lines 124–134 of `bot.go`): when the
moderating account itself is among the joined accounts, run `initGroup`;
a nil result returns from the whole flow. -/
def initLoop (selfID : Int) (m : MsgCtx) (env : InitEnv) (users : List TgUser)
    (st : Store) (cur : Option GroupSettings) : Store × List Action × Loop1Res :=
  match users with
  | [] => (st, [], .cont cur)
  | u :: rest =>
    if u.id = selfID then
      match initGroup m env st with
      | (st1, tr1, .fatal) => (st1, tr1, .fatal)
      | (st1, tr1, .noSettings) => (st1, tr1, .stop)
      | (st1, tr1, .ok s) =>
        let r := initLoop selfID m env rest st1 (some s)
        (r.1, tr1 ++ r.2.1, r.2.2)
    else initLoop selfID m env rest st cur

/-- The second loop of `processNewUsers` (lines 141–236 of `bot.go`):
process each joined account in order with the in-memory settings `set`;
`logrus.Fatal` ends the process, so later accounts are not reached. -/
def usersLoop (selfID : Int) (m : MsgCtx) (set : GroupSettings)
    (uenv : Nat → UserEnv) (i : Nat) (users : List TgUser) (st : Store) :
    Store × List Action × FlowExit :=
  match users with
  | [] => (st, [], .normal)
  | u :: rest =>
    match processUser selfID m set (uenv i) st u with
    | (st1, tr1, .fatal) => (st1, tr1, .fatal)
    | (st1, tr1, .normal) =>
      let r := usersLoop selfID m set uenv (i + 1) rest st1
      (r.1, tr1 ++ r.2.1, r.2.2)

/-- Failure injections for one `processNewUsers` event. -/
structure NewUsersEnv where
  findErr : Bool
  initEnv : InitEnv
  userEnv : Nat → UserEnv

/-- `processNewUsers` of `bot.go`: read the settings (a store error is
process-fatal), run the initialization loop, skip an unregistered chat,
then moderate each joined account. -/
def processNewUsers (selfID : Int) (m : MsgCtx) (users : List TgUser)
    (env : NewUsersEnv) (st : Store) : Store × List Action × FlowExit :=
  if env.findErr then (st, [], .fatal)
  else
    match initLoop selfID m env.initEnv users st (findGroupByID st m.chatID) with
    | (st1, tr1, .fatal) => (st1, tr1, .fatal)
    | (st1, tr1, .stop) => (st1, tr1, .normal)
    | (st1, tr1, .cont none) => (st1, tr1, .normal)
    | (st1, tr1, .cont (some set)) =>
      let r := usersLoop selfID m set env.userEnv 0 users st1
      (r.1, tr1 ++ r.2.1, r.2.2)

/-- Failure injections for one `processBotMessage` event. -/
structure BotMsgEnv where
  isActiveErr : Bool
  sIsMemberErr : Bool
  kickApi : ApiOutcome
  deactErr : Bool
  deleteApi : ApiOutcome
deriving Repr, DecidableEq

/-- `processBotMessage` of `bot.go`: skip an inactive chat, skip a
whitelisted sender, otherwise attempt removal; a denial deactivates the
chat and returns, while a transport error merely logs — the flow then
falls through to the message-deletion attempt. -/
def processBotMessage (m : MsgCtx) (env : BotMsgEnv) (st : Store) :
    Store × List Action × FlowExit :=
  if env.isActiveErr then (st, [], .fatal)
  else if !isGroupActive st m.chatID then (st, [], .normal)
  else if env.sIsMemberErr then (st, [Action.memberCheck m.chatID m.fromID], .fatal)
  else if st.whitelist m.chatID m.fromID then
    (st, [Action.memberCheck m.chatID m.fromID], .normal)
  else
    let tr0 := [Action.memberCheck m.chatID m.fromID, Action.kickAttempt m.chatID m.fromID]
    match kickUser env.kickApi with
    | (false, none) =>
      if env.deactErr then (st, tr0, .fatal)
      else (changeGroupActiveStatus st m.chatID false, tr0, .normal)
    | (_, some _) =>
      (st, tr0 ++ [Action.deleteMsgAttempt m.chatID m.messageID], .normal)
    | (true, none) =>
      (st, tr0 ++ [Action.deleteMsgAttempt m.chatID m.messageID], .normal)

/-- Failure injections for one `processLeftUser` event.  `hgetRes` is the
raw string the `HGet` of the `creator` field returns: the model's settings
hold a parsed creator, so the raw hash field is an input; a coherent run
supplies the decimal rendering of the recorded creator, a corrupted store
supplies a non-numeric string. -/
structure LeftEnv where
  hgetRes : Except Unit String
  pipeErr : Bool
  sremErr : Bool

/-- Digit run of `parseIntStr`: accumulates decimal digits, `none` on the
first non-digit character. -/
def parseDigitsAux : List Char → Nat → Option Nat
  | [], acc => some acc
  | c :: cs, acc => if c.isDigit then parseDigitsAux cs (acc * 10 + (c.toNat - 48)) else none

/-- Modelled from Go's standard library `strconv.ParseInt` (base 10), which
the cleanup flow applies to the stored creator string: an optional sign
followed by at least one decimal digit; anything else fails to parse. -/
def parseIntStr (s : String) : Option Int :=
  match s.data with
  | [] => none
  | '-' :: cs => if cs.isEmpty then none else (parseDigitsAux cs 0).map (fun n => -(n : Int))
  | '+' :: cs => if cs.isEmpty then none else (parseDigitsAux cs 0).map (fun n => (n : Int))
  | cs => (parseDigitsAux cs 0).map (fun n => (n : Int))

/-- The second check of `processLeftUser` (lines 272–279 of `bot.go`): a
departing automated account is removed from the whitelist. -/
def leftBotPhase (m : MsgCtx) (leftU : TgUser) (env : LeftEnv) (st : Store) :
    Store × List Action × FlowExit :=
  if leftU.isBot then
    if env.sremErr then (st, [], .fatal)
    else ({ st with whitelist := fun c u =>
        if c = m.chatID ∧ u = leftU.id then false else st.whitelist c u }, [], .normal)
  else (st, [], .normal)

/-- `processLeftUser` of `bot.go`: when the moderator itself departs, read
the stored creator string, then in one pipeline delete the settings and
whitelist keys and, when the creator string parses, remove the chat from
that creator's admin-group set (`strconv.ParseInt` is modelled by
`parseIntStr`); afterwards the automated-account check also runs. -/
def processLeftUser (selfID : Int) (m : MsgCtx) (leftU : TgUser) (env : LeftEnv)
    (st : Store) : Store × List Action × FlowExit :=
  if selfID = leftU.id then
    match env.hgetRes with
    | .error _ => (st, [], .fatal)
    | .ok creatorStr =>
      if env.pipeErr then (st, [], .fatal)
      else
        let st1 : Store := { st with
          settings := fun c => if c = m.chatID then none else st.settings c,
          whitelist := fun c u => if c = m.chatID then false else st.whitelist c u }
        let st2 : Store :=
          match parseIntStr creatorStr with
          | some a => { st1 with adminGroups := fun x g =>
              if x = a ∧ g = m.chatID then false else st1.adminGroups x g }
          | none => st1
        leftBotPhase m leftU env st2
  else leftBotPhase m leftU env st

/-! Predicates and concrete fixtures used by the verification. -/

/-- No step of the engine turns a chat's moderation from inactive to
active: activity observed after implies activity before. -/
def NoActivation (st st' : Store) : Prop :=
  ∀ c, isGroupActive st' c = true → isGroupActive st c = true

/-- The warn-counter bound claimed by the spec: every persisted counter of
the chat stays strictly below the warn limit between events. -/
def WarnInv (st : Store) (chat : Int) (lim : Int) : Prop :=
  ∀ u, (st.warns chat u : Int) ≤ lim - 1

def setC : GroupSettings :=
  { isActive := true, showWarn := true, limit := 3, creator := 100,
    title := "t", description := "d" }

def stC : Store :=
  { settings := fun c => if c = 1 then some setC else none
    whitelist := fun _ _ => false
    adminGroups := fun _ _ => false
    warns := fun c u => if c = 1 ∧ u = 200 then 2 else 0 }

def msgC : MsgCtx :=
  { chatID := 1, fromID := 200, messageID := 5, chatTitle := "t", chatDescription := "d" }

def msgCr : MsgCtx :=
  { chatID := 1, fromID := 100, messageID := 5, chatTitle := "t", chatDescription := "d" }

def apiOk : ApiOutcome := { ok := true, errorCode := 200, err := none }

def apiDenied : ApiOutcome := { ok := false, errorCode := 400, err := none }

def apiNetErr : ApiOutcome := { ok := false, errorCode := 0, err := some "net" }

def netKickEnv : BotMsgEnv :=
  { isActiveErr := false, sIsMemberErr := false, kickApi := apiNetErr,
    deactErr := false, deleteApi := apiOk }

def denyEnv : BotMsgEnv :=
  { isActiveErr := false, sIsMemberErr := false, kickApi := apiDenied,
    deactErr := false, deleteApi := apiOk }

def uenvWl : UserEnv :=
  { sAddErr := false, sIsMemberErr := false, kickBotApi := apiOk, deactErr := false,
    incrErr := false, kickHumanApi := apiOk, deactErr2 := false, delWarnErr := false }

def uenvKick : UserEnv :=
  { sAddErr := false, sIsMemberErr := false, kickBotApi := apiOk, deactErr := false,
    incrErr := false, kickHumanApi := apiOk, deactErr2 := false, delWarnErr := false }

def uenvNet : UserEnv :=
  { sAddErr := false, sIsMemberErr := false, kickBotApi := apiOk, deactErr := false,
    incrErr := false, kickHumanApi := apiNetErr, deactErr2 := false, delWarnErr := false }

def initEnvC : InitEnv :=
  { adminsRes := .ok [{ id := 100, isCreator := true }], pipeErr := false }

def pipeErrEnv : InitEnv :=
  { adminsRes := .ok [{ id := 100, isCreator := true }], pipeErr := true }

def stEmpty : Store :=
  { settings := fun _ => none, whitelist := fun _ _ => false,
    adminGroups := fun _ _ => false, warns := fun _ _ => 0 }

def setDefault1 : GroupSettings :=
  { isActive := false, showWarn := true, limit := 3, creator := 100,
    title := "t", description := "d" }

def selfBot : TgUser := { id := 42, userName := "hudor", isBot := true }

def envL : LeftEnv := { hgetRes := .ok "100", pipeErr := false, sremErr := false }

def usersC : List TgUser := [{ id := 999, userName := "spam", isBot := true }]

def envFindErr : NewUsersEnv :=
  { findErr := true, initEnv := { adminsRes := .error (), pipeErr := false },
    userEnv := fun _ => uenvWl }

def envNet : NewUsersEnv :=
  { findErr := false, initEnv := { adminsRes := .error (), pipeErr := false },
    userEnv := fun _ => uenvNet }

def envSucc : NewUsersEnv :=
  { findErr := false, initEnv := { adminsRes := .error (), pipeErr := false },
    userEnv := fun _ => uenvKick }

def st1C : Store := (processNewUsers 42 msgC usersC envNet stC).1

def st2C : Store := (processNewUsers 42 msgC usersC envNet st1C).1

/-! Helper lemmas shared by the claim theorems. -/

theorem warnPhase_whitelist (m : MsgCtx) (set : GroupSettings) (env : UserEnv) (st : Store) :
    (warnPhase m set env st).1.whitelist = st.whitelist := by
  unfold warnPhase
  split_ifs <;> try rfl
  all_goals (split <;> try rfl)
  all_goals (dsimp only; split <;> rfl)

theorem processUser_whitelist_mono (selfID : Int) (m : MsgCtx) (set : GroupSettings)
    (env : UserEnv) (st : Store) (u : TgUser) (c w : Int)
    (h : st.whitelist c w = true) :
    (processUser selfID m set env st u).1.whitelist c w = true := by
  unfold processUser
  split_ifs <;> try exact h
  · simp only [whitelistAdd]
    split_ifs <;> first | rfl | exact h
  · simp only [whitelistAdd]
    split_ifs <;> first | rfl | exact h
  all_goals (
    rcases hk : kickUser env.kickBotApi with ⟨b, oe⟩
    rcases oe with _ | e
    · cases b
      · exact h
      · dsimp only
        rw [warnPhase_whitelist]
        exact h
    · cases b <;> exact h)

theorem usersLoop_whitelist_mono (selfID : Int) (m : MsgCtx) (set : GroupSettings)
    (uenv : Nat → UserEnv) :
    ∀ (users : List TgUser) (i : Nat) (st : Store) (c w : Int),
      st.whitelist c w = true →
      (usersLoop selfID m set uenv i users st).1.whitelist c w = true := by
  intro users
  induction users with
  | nil => intro i st c w h; exact h
  | cons u rest ih =>
    intro i st c w h
    unfold usersLoop
    rcases hp : processUser selfID m set (uenv i) st u with ⟨st1, tr1, ex⟩
    have h1 : st1.whitelist c w = true := by
      have hmono := processUser_whitelist_mono selfID m set (uenv i) st u c w h
      rw [hp] at hmono
      exact hmono
    cases ex
    · exact ih (i + 1) st1 c w h1
    · exact h1

theorem noActivation_refl (st : Store) : NoActivation st st := fun _ h => h

theorem noActivation_trans (st1 st2 st3 : Store)
    (h12 : NoActivation st1 st2) (h23 : NoActivation st2 st3) : NoActivation st1 st3 :=
  fun c hc => h12 c (h23 c hc)

theorem isGroupActive_congr (st1 st2 : Store) (h : st1.settings = st2.settings) (c : Int) :
    isGroupActive st1 c = isGroupActive st2 c := by
  unfold isGroupActive
  rw [h]

theorem deact_inactive (st : Store) (chat : Int) :
    isGroupActive (changeGroupActiveStatus st chat false) chat = false := by
  unfold isGroupActive changeGroupActiveStatus
  simp only [if_pos rfl]
  rcases st.settings chat with _ | s <;> simp

theorem noActivation_deact (st : Store) (chat : Int) :
    NoActivation st (changeGroupActiveStatus st chat false) := by
  intro c hc
  by_cases h : c = chat
  · subst h
    rw [deact_inactive] at hc
    exact absurd hc (by simp)
  · have heq : isGroupActive (changeGroupActiveStatus st chat false) c = isGroupActive st c := by
      unfold isGroupActive changeGroupActiveStatus
      simp [h]
    rw [heq] at hc
    exact hc

theorem noActivation_of_cases (st st' : Store) (chat : Int)
    (h : st'.settings = st.settings ∨
         st'.settings = (changeGroupActiveStatus st chat false).settings) :
    NoActivation st st' := by
  intro c hc
  rcases h with h | h
  · rw [isGroupActive_congr st' st h] at hc
    exact hc
  · rw [isGroupActive_congr st' (changeGroupActiveStatus st chat false) h] at hc
    exact noActivation_deact st chat c hc

theorem warnPhase_settings_cases (m : MsgCtx) (set : GroupSettings) (env : UserEnv)
    (st : Store) :
    (warnPhase m set env st).1.settings = st.settings ∨
    (warnPhase m set env st).1.settings = (changeGroupActiveStatus st m.chatID false).settings := by
  unfold warnPhase
  split_ifs <;> try (left; rfl)
  all_goals (split <;> try (left; rfl))
  all_goals (dsimp only; split)
  all_goals first
    | (left; rfl)
    | (right; rfl)

theorem processUser_settings_cases (selfID : Int) (m : MsgCtx) (set : GroupSettings)
    (env : UserEnv) (st : Store) (u : TgUser) :
    (processUser selfID m set env st u).1.settings = st.settings ∨
    (processUser selfID m set env st u).1.settings =
      (changeGroupActiveStatus st m.chatID false).settings := by
  unfold processUser
  split_ifs <;> try (left; rfl)
  all_goals (
    rcases hk : kickUser env.kickBotApi with ⟨b, oe⟩
    rcases oe with _ | e
    · cases b
      · first | (left; rfl) | (right; rfl)
      · dsimp only
        exact warnPhase_settings_cases m set env st
    · cases b <;> (left; rfl))

theorem processUser_noActivation (selfID : Int) (m : MsgCtx) (set : GroupSettings)
    (env : UserEnv) (st : Store) (u : TgUser) :
    NoActivation st (processUser selfID m set env st u).1 :=
  noActivation_of_cases st _ m.chatID (processUser_settings_cases selfID m set env st u)

theorem initGroup_noActivation (m : MsgCtx) (env : InitEnv) (st : Store) :
    NoActivation st (initGroup m env st).1 := by
  unfold initGroup
  rcases env.adminsRes with e | admins
  · exact noActivation_refl st
  · dsimp only
    rcases findCreator admins with _ | c
    · exact noActivation_refl st
    · dsimp only
      split_ifs
      · exact noActivation_refl st
      · intro ch hc
        by_cases h : ch = m.chatID
        · subst h
          unfold isGroupActive at hc
          simp at hc
        · unfold isGroupActive at hc ⊢
          simp only [if_neg h] at hc
          exact hc

theorem initLoop_noActivation (selfID : Int) (m : MsgCtx) (env : InitEnv) :
    ∀ (users : List TgUser) (st : Store) (cur : Option GroupSettings),
      NoActivation st (initLoop selfID m env users st cur).1 := by
  intro users
  induction users with
  | nil => intro st cur; exact noActivation_refl st
  | cons u rest ih =>
    intro st cur
    unfold initLoop
    by_cases hu : u.id = selfID
    · rw [if_pos hu]
      rcases hg : initGroup m env st with ⟨st1, tr1, r⟩
      have h1 : NoActivation st st1 := by
        have := initGroup_noActivation m env st
        rw [hg] at this
        exact this
      cases r
      · exact h1
      · exact h1
      · exact noActivation_trans st st1 _ h1 (ih st1 _)
    · rw [if_neg hu]
      exact ih st cur

theorem usersLoop_noActivation (selfID : Int) (m : MsgCtx) (set : GroupSettings)
    (uenv : Nat → UserEnv) :
    ∀ (users : List TgUser) (i : Nat) (st : Store),
      NoActivation st (usersLoop selfID m set uenv i users st).1 := by
  intro users
  induction users with
  | nil => intro i st; exact noActivation_refl st
  | cons u rest ih =>
    intro i st
    unfold usersLoop
    rcases hp : processUser selfID m set (uenv i) st u with ⟨st1, tr1, ex⟩
    have h1 : NoActivation st st1 := by
      have := processUser_noActivation selfID m set (uenv i) st u
      rw [hp] at this
      exact this
    cases ex
    · exact noActivation_trans st st1 _ h1 (ih (i + 1) st1)
    · exact h1

theorem processNewUsers_noActivation (selfID : Int) (m : MsgCtx) (users : List TgUser)
    (env : NewUsersEnv) (st : Store) :
    NoActivation st (processNewUsers selfID m users env st).1 := by
  unfold processNewUsers
  split_ifs
  · exact noActivation_refl st
  · rcases hl : initLoop selfID m env.initEnv users st (findGroupByID st m.chatID)
      with ⟨st1, tr1, r⟩
    have h1 : NoActivation st st1 := by
      have := initLoop_noActivation selfID m env.initEnv users st (findGroupByID st m.chatID)
      rw [hl] at this
      exact this
    cases r with
    | fatal => exact h1
    | stop => exact h1
    | cont s =>
      cases s with
      | none => exact h1
      | some set =>
        refine noActivation_trans st st1 _ h1 ?_
        dsimp only
        exact usersLoop_noActivation selfID m set env.userEnv users 0 st1

theorem processBotMessage_noActivation (m : MsgCtx) (env : BotMsgEnv) (st : Store) :
    NoActivation st (processBotMessage m env st).1 := by
  unfold processBotMessage
  split_ifs <;> try exact noActivation_refl st
  all_goals (
    rcases hk : kickUser env.kickApi with ⟨b, oe⟩
    rcases oe with _ | e
    · cases b
      · first
          | exact noActivation_refl st
          | exact noActivation_deact st m.chatID
      · exact noActivation_refl st
    · cases b <;> exact noActivation_refl st)

theorem processLeftUser_noActivation (selfID : Int) (m : MsgCtx) (leftU : TgUser)
    (env : LeftEnv) (st : Store) :
    NoActivation st (processLeftUser selfID m leftU env st).1 := by
  have hset : ∀ (st2 : Store), (leftBotPhase m leftU env st2).1.settings = st2.settings := by
    intro st2
    unfold leftBotPhase
    split_ifs <;> rfl
  have hbot : NoActivation st (leftBotPhase m leftU env st).1 := by
    intro c hc
    rw [isGroupActive_congr _ st (hset st) c] at hc
    exact hc
  unfold processLeftUser
  by_cases hs : selfID = leftU.id
  · rw [if_pos hs]
    rcases hh : env.hgetRes with e | s
    · exact noActivation_refl st
    · dsimp only
      by_cases hp : env.pipeErr = true
      · rw [if_pos hp]
        exact noActivation_refl st
      · rw [if_neg hp]
        intro c hc
        have key : ∀ (st2 : Store),
            st2.settings = (fun cc => if cc = m.chatID then none else st.settings cc) →
            isGroupActive (leftBotPhase m leftU env st2).1 c = true →
            isGroupActive st c = true := by
          intro st2 hs2 hcc
          rw [isGroupActive_congr _ st2 (hset st2) c] at hcc
          unfold isGroupActive at hcc ⊢
          rw [hs2] at hcc
          by_cases h : c = m.chatID
          · simp [h] at hcc
          · simp only [if_neg h] at hcc
            exact hcc
        rcases hpp : parseIntStr s with _ | a <;> rw [hpp] at hc
        · exact key _ rfl hc
        · exact key _ rfl hc
  · rw [if_neg hs]
    exact hbot

theorem warnPhase_warn_inv (m : MsgCtx) (set : GroupSettings) (env : UserEnv) (st : Store)
    (hLim : 1 ≤ set.limit)
    (hKickH : kickUser env.kickHumanApi = (true, none)) (hDel : env.delWarnErr = false)
    (hInv : WarnInv st m.chatID set.limit) :
    WarnInv (warnPhase m set env st).1 m.chatID set.limit ∧
    (∀ c w, c ≠ m.chatID → (warnPhase m set env st).1.warns c w = st.warns c w) := by
  unfold warnPhase
  by_cases hIncr : env.incrErr = true
  · rw [if_pos hIncr]
    exact ⟨hInv, fun c w h => rfl⟩
  · rw [if_neg hIncr]
    dsimp only
    by_cases hge : ((incrementMemberWarns st m.chatID m.fromID).2 : Int) ≥ set.limit
    · rw [if_pos hge, hKickH, hDel]
      simp only [Bool.false_eq_true, if_false]
      constructor
      · intro w
        dsimp only
        by_cases h : w = m.fromID
        · rw [if_pos ⟨rfl, h⟩]
          push_cast
          omega
        · rw [if_neg (fun hh => h hh.2)]
          simp only [incrementMemberWarns]
          rw [if_neg (fun hh => h hh.2)]
          exact hInv w
      · intro c w hc
        rw [if_neg (fun hh => hc hh.1)]
        simp only [incrementMemberWarns]
        rw [if_neg (fun hh => hc hh.1)]
    · rw [if_neg hge]
      have hp1 : WarnInv (incrementMemberWarns st m.chatID m.fromID).1 m.chatID set.limit := by
        intro w
        simp only [incrementMemberWarns]
        by_cases h : w = m.fromID
        · rw [if_pos ⟨by trivial, h⟩]
          simp only [incrementMemberWarns] at hge
          push_cast at hge ⊢
          omega
        · rw [if_neg (fun hh => h hh.2)]
          exact hInv w
      have hp2 : ∀ c w, c ≠ m.chatID →
          (incrementMemberWarns st m.chatID m.fromID).1.warns c w = st.warns c w := by
        intro c w hc
        simp only [incrementMemberWarns]
        rw [if_neg (fun hh => hc hh.1)]
      split_ifs <;> exact ⟨hp1, hp2⟩

theorem processUser_warn_inv (selfID : Int) (m : MsgCtx) (set : GroupSettings)
    (env : UserEnv) (st : Store) (u : TgUser) (hLim : 1 ≤ set.limit)
    (hKickH : kickUser env.kickHumanApi = (true, none)) (hDel : env.delWarnErr = false)
    (hInv : WarnInv st m.chatID set.limit) :
    WarnInv (processUser selfID m set env st u).1 m.chatID set.limit ∧
    (∀ c w, c ≠ m.chatID →
      (processUser selfID m set env st u).1.warns c w = st.warns c w) := by
  unfold processUser
  split_ifs <;> try exact ⟨hInv, fun c w h => rfl⟩
  all_goals (
    rcases hk : kickUser env.kickBotApi with ⟨b, oe⟩
    rcases oe with _ | e
    · cases b
      · exact ⟨hInv, fun c w h => rfl⟩
      · dsimp only
        exact warnPhase_warn_inv m set env st hLim hKickH hDel hInv
    · cases b <;> exact ⟨hInv, fun c w h => rfl⟩)

theorem usersLoop_warn_inv (selfID : Int) (m : MsgCtx) (set : GroupSettings)
    (uenv : Nat → UserEnv) (hLim : 1 ≤ set.limit)
    (hKickH : ∀ i, kickUser (uenv i).kickHumanApi = (true, none))
    (hDel : ∀ i, (uenv i).delWarnErr = false) :
    ∀ (users : List TgUser) (i : Nat) (st : Store),
      WarnInv st m.chatID set.limit →
      WarnInv (usersLoop selfID m set uenv i users st).1 m.chatID set.limit ∧
      (∀ c w, c ≠ m.chatID →
        (usersLoop selfID m set uenv i users st).1.warns c w = st.warns c w) := by
  intro users
  induction users with
  | nil => intro i st hInv; exact ⟨hInv, fun c w h => rfl⟩
  | cons u rest ih =>
    intro i st hInv
    unfold usersLoop
    rcases hp : processUser selfID m set (uenv i) st u with ⟨st1, tr1, ex⟩
    have hstep := processUser_warn_inv selfID m set (uenv i) st u hLim (hKickH i)
      (hDel i) hInv
    rw [hp] at hstep
    cases ex
    · have hrec := ih (i + 1) st1 hstep.1
      exact ⟨hrec.1, fun c w hc => (hrec.2 c w hc).trans (hstep.2 c w hc)⟩
    · exact hstep

theorem initLoop_no_self (selfID : Int) (m : MsgCtx) (env : InitEnv) :
    ∀ (users : List TgUser) (st : Store) (cur : Option GroupSettings),
      (∀ u ∈ users, u.id ≠ selfID) →
      initLoop selfID m env users st cur = (st, [], Loop1Res.cont cur) := by
  intro users
  induction users with
  | nil => intro st cur h; rfl
  | cons u rest ih =>
    intro st cur h
    unfold initLoop
    rw [if_neg (h u (by simp))]
    exact ih st cur (fun v hv => h v (by simp [hv]))

/-! Claim theorems. -/

/-- C1, counterexample: the claimed invariant `warnCounter ≤ warnLimit` fails on the
code.  Concretely: chat 1 has limit 3 and user 200 already holds 2 warns; one
new-member event removes a spam bot, the counter reaches 3, and the removal of
user 200 fails with a transport error, so the counter is not reset; a second
identical event drives the counter to 4 > 3. -/
theorem warn_counter_exceeds_limit_counterexample :
    st2C.settings 1 = some setC ∧ setC.limit = 3 ∧ st2C.warns 1 200 = 4 ∧
    ¬ ((st2C.warns 1 200 : Int) ≤ setC.limit) := by
  refine ⟨by decide, by decide, by decide, by decide⟩

/-- C1, amended: the lower bound 0 always holds (counters live in `Nat` because the
engine only increments from absent and deletes), and the upper bound holds in the
following restricted form: a new-member event that does not re-run initialization,
in which every warn-limit removal of the originating human succeeds and no store
error hits the counter-delete path, preserves `warnCounter ≤ warnLimit - 1` for the
event's chat (so the counter never exceeds `warnLimit` at any observation point)
and leaves the counters of all other chats unchanged. -/
theorem warn_counter_invariant_preserved (selfID : Int) (m : MsgCtx) (users : List TgUser)
    (env : NewUsersEnv) (st : Store) (set : GroupSettings)
    (hSet : st.settings m.chatID = some set)
    (hNoSelf : ∀ u ∈ users, u.id ≠ selfID)
    (hLim : 1 ≤ set.limit)
    (hKickH : ∀ i, kickUser (env.userEnv i).kickHumanApi = (true, none))
    (hDel : ∀ i, (env.userEnv i).delWarnErr = false)
    (hInv : WarnInv st m.chatID set.limit) :
    WarnInv (processNewUsers selfID m users env st).1 m.chatID set.limit ∧
    (∀ c w, c ≠ m.chatID →
      (processNewUsers selfID m users env st).1.warns c w = st.warns c w) := by
  unfold processNewUsers
  by_cases hf : env.findErr = true
  · rw [if_pos hf]
    exact ⟨hInv, fun c w h => rfl⟩
  · rw [if_neg hf]
    rw [initLoop_no_self selfID m env.initEnv users st (findGroupByID st m.chatID) hNoSelf]
    have hfind : findGroupByID st m.chatID = some set := hSet
    rw [hfind]
    dsimp only
    exact usersLoop_warn_inv selfID m set env.userEnv hLim hKickH hDel users 0 st hInv

/-- Witness for C1 (amended) at a concrete event below the limit. -/
theorem warn_counter_invariant_preserved_witness :
    ((processNewUsers 42 msgC usersC envSucc stC).1.warns 1 200 : Int) ≤ setC.limit - 1 :=
  (warn_counter_invariant_preserved 42 msgC usersC envSucc stC setC (by decide)
    (by decide) (by decide) (fun _ => by
      show kickUser uenvKick.kickHumanApi = (true, none)
      decide)
    (fun _ => rfl)
    (fun u => by
      by_cases h : u = 200
      · subst h
        decide
      · simp only [stC, setC]
        rw [if_neg (fun hh => h hh.2)]
        decide)).1 200

/-- C2: in each of the three flows (new-member moderation of a joined account,
removal of a human who reached the warn limit, unauthorized-message moderation),
a permission-denied removal is immediately followed by persisting `isActive = false`
and processing of that target stops (the exact transition and the complete action
trace are given); and no Engine flow ever turns `isActive` from false to true. -/
theorem denial_deactivates_and_no_reactivation :
    (∀ (selfID : Int) (m : MsgCtx) (set : GroupSettings) (env : UserEnv) (st : Store)
        (u : TgUser),
      u.id ≠ selfID → m.fromID ≠ set.creator → set.isActive = true →
      env.sIsMemberErr = false → st.whitelist m.chatID u.id = false →
      kickUser env.kickBotApi = (false, none) → env.deactErr = false →
      processUser selfID m set env st u =
        (changeGroupActiveStatus st m.chatID false,
         [Action.memberCheck m.chatID u.id, Action.kickAttempt m.chatID u.id],
         FlowExit.normal) ∧
      isGroupActive (processUser selfID m set env st u).1 m.chatID = false) ∧
    (∀ (selfID : Int) (m : MsgCtx) (set : GroupSettings) (env : UserEnv) (st : Store)
        (u : TgUser),
      u.id ≠ selfID → m.fromID ≠ set.creator → set.isActive = true →
      env.sIsMemberErr = false → st.whitelist m.chatID u.id = false →
      kickUser env.kickBotApi = (true, none) → env.incrErr = false →
      (st.warns m.chatID m.fromID + 1 : Int) ≥ set.limit →
      kickUser env.kickHumanApi = (false, none) → env.deactErr2 = false →
      processUser selfID m set env st u =
        (changeGroupActiveStatus (incrementMemberWarns st m.chatID m.fromID).1 m.chatID false,
         [Action.memberCheck m.chatID u.id, Action.kickAttempt m.chatID u.id,
          Action.kickAttempt m.chatID m.fromID],
         FlowExit.normal) ∧
      isGroupActive (processUser selfID m set env st u).1 m.chatID = false) ∧
    (∀ (m : MsgCtx) (env : BotMsgEnv) (st : Store),
      env.isActiveErr = false → env.sIsMemberErr = false →
      st.whitelist m.chatID m.fromID = false →
      kickUser env.kickApi = (false, none) → env.deactErr = false →
      isGroupActive st m.chatID = true →
      processBotMessage m env st =
        (changeGroupActiveStatus st m.chatID false,
         [Action.memberCheck m.chatID m.fromID, Action.kickAttempt m.chatID m.fromID],
         FlowExit.normal) ∧
      isGroupActive (processBotMessage m env st).1 m.chatID = false) ∧
    (∀ (selfID : Int) (m : MsgCtx) (users : List TgUser) (env : NewUsersEnv) (st : Store),
      NoActivation st (processNewUsers selfID m users env st).1) ∧
    (∀ (m : MsgCtx) (env : BotMsgEnv) (st : Store),
      NoActivation st (processBotMessage m env st).1) ∧
    (∀ (selfID : Int) (m : MsgCtx) (leftU : TgUser) (env : LeftEnv) (st : Store),
      NoActivation st (processLeftUser selfID m leftU env st).1) := by
  refine ⟨?_, ?_, ?_, processNewUsers_noActivation, processBotMessage_noActivation,
    processLeftUser_noActivation⟩
  · intro selfID m set env st u hU hFrom hAct hMem hWl hKick hDe
    have hres : processUser selfID m set env st u =
        (changeGroupActiveStatus st m.chatID false,
         [Action.memberCheck m.chatID u.id, Action.kickAttempt m.chatID u.id],
         FlowExit.normal) := by
      unfold processUser
      simp only [if_neg hU, if_neg hFrom, hAct, Bool.not_true, Bool.false_eq_true, if_false,
        hMem, hWl, hKick, hDe]
    exact ⟨hres, by rw [hres]; exact deact_inactive st m.chatID⟩
  · intro selfID m set env st u hU hFrom hAct hMem hWl hKick hIncr hLim hKick2 hDe2
    have hge : ((incrementMemberWarns st m.chatID m.fromID).2 : Int) ≥ set.limit := by
      simp only [incrementMemberWarns]
      push_cast
      exact hLim
    have hres : processUser selfID m set env st u =
        (changeGroupActiveStatus (incrementMemberWarns st m.chatID m.fromID).1 m.chatID false,
         [Action.memberCheck m.chatID u.id, Action.kickAttempt m.chatID u.id,
          Action.kickAttempt m.chatID m.fromID],
         FlowExit.normal) := by
      unfold processUser warnPhase
      simp only [if_neg hU, if_neg hFrom, hAct, Bool.not_true, Bool.false_eq_true, if_false,
        hMem, hWl, hKick, hIncr]
      rw [if_pos hge, hKick2]
      simp [hDe2]
    exact ⟨hres, by
      rw [hres]
      exact deact_inactive (incrementMemberWarns st m.chatID m.fromID).1 m.chatID⟩
  · intro m env st hErrA hMem hWl hKick hDe hActive
    have hres : processBotMessage m env st =
        (changeGroupActiveStatus st m.chatID false,
         [Action.memberCheck m.chatID m.fromID, Action.kickAttempt m.chatID m.fromID],
         FlowExit.normal) := by
      unfold processBotMessage
      simp only [hErrA, Bool.false_eq_true, if_false, hActive, Bool.not_true,
        hMem, hWl, hKick, hDe]
    exact ⟨hres, by rw [hres]; exact deact_inactive st m.chatID⟩

/-- Witness for C2 at a concrete denied removal. -/
theorem denial_deactivates_witness :
    isGroupActive (processBotMessage msgC denyEnv stC).1 1 = false ∧
    (processBotMessage msgC denyEnv stC).2.1 =
      [Action.memberCheck 1 200, Action.kickAttempt 1 200] := by
  have h := denial_deactivates_and_no_reactivation.2.2.1 msgC denyEnv stC rfl rfl
    rfl (by decide) rfl (by decide)
  exact ⟨h.2, by rw [h.1]; rfl⟩

/-- C3, counterexample: a failed settings read at the start of new-member processing
does not abort only that event's flow — it ends with `FlowExit.fatal`, which models
`logrus.Fatal`, i.e. termination of the whole process. -/
theorem store_failure_kills_process_counterexample :
    (processNewUsers 42 msgC usersC envFindErr stC).2.2 = FlowExit.fatal ∧
    FlowExit.fatal ≠ FlowExit.normal := by
  exact ⟨rfl, by decide⟩

/-- C3, amended: a failed store access on the critical path (the settings read at the
start of new-member processing, or the settings-creation batch of initialization)
terminates the entire process (`logrus.Fatal`), leaving the store unchanged at the
failure point; it is not isolated to the triggering event. -/
theorem store_failure_process_fatal :
    (∀ (selfID : Int) (m : MsgCtx) (users : List TgUser) (env : NewUsersEnv) (st : Store),
      env.findErr = true →
      processNewUsers selfID m users env st = (st, [], FlowExit.fatal)) ∧
    (∀ (m : MsgCtx) (env : InitEnv) (st : Store) (admins : List ChatMember) (c : ChatMember),
      env.adminsRes = Except.ok admins → findCreator admins = some c →
      env.pipeErr = true →
      initGroup m env st = (st, [Action.sendIntro m.chatID], InitRes.fatal)) := by
  constructor
  · intro selfID m users env st hf
    unfold processNewUsers
    rw [if_pos hf]
  · intro m env st admins c hA hC hp
    unfold initGroup
    rw [hA]
    dsimp only
    rw [hC, hp]
    simp

/-- Witness for C3 (amended) at concrete failing stores. -/
theorem store_failure_process_fatal_witness :
    processNewUsers 42 msgC usersC envFindErr stC = (stC, [], FlowExit.fatal) ∧
    initGroup msgC pipeErrEnv stEmpty = (stEmpty, [Action.sendIntro 1], InitRes.fatal) := by
  constructor
  · exact store_failure_process_fatal.1 42 msgC usersC envFindErr stC rfl
  · exact store_failure_process_fatal.2 msgC pipeErrEnv stEmpty
      [{ id := 100, isCreator := true }] { id := 100, isCreator := true } rfl rfl rfl

/-- C4: a joined account (other than the moderator itself) introduced by the recorded
creator ends up in the whitelist, the confirmation notice is emitted exactly when the
account was newly added, and no removal attempt, warn-counter change, settings
change, or whitelist-membership check happens for it — for every settings value, so
independently of `isActive`; whitelist membership then survives the rest of the
event's loop. -/
theorem creator_introduction_never_moderated (selfID : Int) (m : MsgCtx)
    (set : GroupSettings) (env : UserEnv) (st : Store) (u : TgUser)
    (hU : u.id ≠ selfID) (hFrom : m.fromID = set.creator) (hErr : env.sAddErr = false) :
    (processUser selfID m set env st u).1.whitelist m.chatID u.id = true ∧
    ((processUser selfID m set env st u).2.1 =
      if st.whitelist m.chatID u.id then []
      else [Action.whitelistNotice m.chatID m.messageID u.userName]) ∧
    (processUser selfID m set env st u).1.warns = st.warns ∧
    (processUser selfID m set env st u).1.settings = st.settings ∧
    (∀ a b, Action.kickAttempt a b ∉ (processUser selfID m set env st u).2.1) ∧
    (∀ a b, Action.memberCheck a b ∉ (processUser selfID m set env st u).2.1) ∧
    (processUser selfID m set env st u).2.2 = FlowExit.normal ∧
    (∀ (uenv : Nat → UserEnv) (i : Nat) (users : List TgUser) (st' : Store) (c w : Int),
      st'.whitelist c w = true →
      (usersLoop selfID m set uenv i users st').1.whitelist c w = true) := by
  have hres : processUser selfID m set env st u =
      (whitelistAdd st m.chatID u.id,
       (if st.whitelist m.chatID u.id then []
        else [Action.whitelistNotice m.chatID m.messageID u.userName]),
       FlowExit.normal) := by
    unfold processUser
    simp only [if_neg hU, if_pos hFrom, hErr, Bool.false_eq_true, if_false]
    by_cases hw : st.whitelist m.chatID u.id <;> simp [hw]
  rw [hres]
  refine ⟨by simp [whitelistAdd], rfl, rfl, rfl, ?_, ?_, rfl, ?_⟩
  · intro a b
    split_ifs <;> simp
  · intro a b
    split_ifs <;> simp
  · exact fun uenv i users st' c w h =>
      usersLoop_whitelist_mono selfID m set uenv users i st' c w h

/-- Witness for C4 at a concrete creator introduction. -/
theorem creator_introduction_never_moderated_witness :
    (processUser 42 msgCr setC uenvWl stC
      { id := 999, userName := "b", isBot := true }).1.whitelist 1 999 = true ∧
    (processUser 42 msgCr setC uenvWl stC
      { id := 999, userName := "b", isBot := true }).1.warns = stC.warns ∧
    (Action.kickAttempt 1 999 ∉
      (processUser 42 msgCr setC uenvWl stC
        { id := 999, userName := "b", isBot := true }).2.1) := by
  have h := creator_introduction_never_moderated 42 msgCr setC uenvWl stC
    { id := 999, userName := "b", isBot := true } (by decide) (by decide) (by decide)
  exact ⟨h.1, h.2.2.1, h.2.2.2.2.1 1 999⟩

/-- C5, code bug witnessed at the failing input: in unauthorized-message moderation
with an active chat and a non-whitelisted sender, a transport error from the removal
call (`kickUser` returns a non-nil error, here on `netKickEnv`) falls through to the
message-deletion attempt even though the removal did not succeed — the trace ends
with `deleteMsgAttempt` although the kick result is not `(true, none)`. -/
theorem bot_message_delete_after_failed_removal :
    kickUser netKickEnv.kickApi ≠ (true, none) ∧
    (processBotMessage msgC netKickEnv stC).2.1 =
      [Action.memberCheck 1 200, Action.kickAttempt 1 200, Action.deleteMsgAttempt 1 5] ∧
    (processBotMessage msgC netKickEnv stC).1.settings 1 = some setC := by
  refine ⟨by decide, by decide, by decide⟩

/-- C6: when initialization finds a creator, it performs exactly one atomic batch that
writes precisely the default settings `{isActive := false, showWarn := true,
limit := 3, creator, title, description}` and adds the chat ID to that creator's
admin-group set, touching nothing else; on batch failure the store is completely
unchanged, so no partial write is ever observable. -/
theorem initGroup_atomic_defaults (m : MsgCtx) (env : InitEnv) (st : Store)
    (admins : List ChatMember) (c : ChatMember)
    (hA : env.adminsRes = Except.ok admins) (hC : findCreator admins = some c) :
    (env.pipeErr = false →
      initGroup m env st =
        ({ st with
            adminGroups := fun a g =>
              if a = c.id ∧ g = m.chatID then true else st.adminGroups a g,
            settings := fun g =>
              if g = m.chatID then
                some { isActive := false, showWarn := true, limit := 3, creator := c.id,
                       title := m.chatTitle, description := m.chatDescription }
              else st.settings g },
         [Action.sendIntro m.chatID],
         InitRes.ok { isActive := false, showWarn := true, limit := 3, creator := c.id,
                      title := m.chatTitle, description := m.chatDescription })) ∧
    (env.pipeErr = true →
      initGroup m env st = (st, [Action.sendIntro m.chatID], InitRes.fatal)) := by
  refine ⟨fun h => ?_, fun h => ?_⟩ <;> simp [initGroup, hA, hC, h]

/-- Witness for C6 at a concrete chat. -/
theorem initGroup_atomic_defaults_witness :
    (initGroup msgC initEnvC stEmpty).2.2 = InitRes.ok setDefault1 ∧
    (initGroup msgC initEnvC stEmpty).1.settings 1 = some setDefault1 ∧
    (initGroup msgC initEnvC stEmpty).1.adminGroups 100 1 = true := by
  have h := (initGroup_atomic_defaults msgC initEnvC stEmpty
    [{ id := 100, isCreator := true }] { id := 100, isCreator := true } rfl rfl).1 rfl
  rw [h]
  refine ⟨rfl, by simp [msgC, setDefault1], by simp [msgC]⟩

/-- C7: when the departing member is the moderator itself, the chat's settings key and
whitelist key are both deleted and, when the stored creator string parses, the chat ID
is removed from that creator's admin-group set, all in one batch; when the stored
creator string cannot be parsed, only the admin-group removal is skipped while the
two deletions still happen. -/
theorem left_moderator_cleanup (selfID : Int) (m : MsgCtx) (leftU : TgUser)
    (env : LeftEnv) (st : Store) (s : String)
    (hSelf : selfID = leftU.id) (hHGet : env.hgetRes = Except.ok s)
    (hPipe : env.pipeErr = false) (hSRem : env.sremErr = false) :
    (processLeftUser selfID m leftU env st).1.settings m.chatID = none ∧
    (∀ u, (processLeftUser selfID m leftU env st).1.whitelist m.chatID u = false) ∧
    (∀ a, parseIntStr s = some a →
      (processLeftUser selfID m leftU env st).1.adminGroups a m.chatID = false) ∧
    (parseIntStr s = none →
      ∀ x g, (processLeftUser selfID m leftU env st).1.adminGroups x g = st.adminGroups x g) ∧
    (processLeftUser selfID m leftU env st).2.2 = FlowExit.normal := by
  unfold processLeftUser leftBotPhase
  simp only [if_pos hSelf, hHGet, hPipe, hSRem, Bool.false_eq_true, if_false]
  rcases hp : parseIntStr s with _ | a <;>
    by_cases hb : leftU.isBot <;>
      simp [hp, hb]

/-- Witness for C7 at a concrete departure of the moderator. -/
theorem left_moderator_cleanup_witness :
    (processLeftUser 42 msgC selfBot envL stC).1.settings 1 = none ∧
    (processLeftUser 42 msgC selfBot envL stC).1.whitelist 1 999 = false ∧
    (processLeftUser 42 msgC selfBot envL stC).1.adminGroups 100 1 = false ∧
    (processLeftUser 42 msgC selfBot envL stC).2.2 = FlowExit.normal := by
  have h := left_moderator_cleanup 42 msgC selfBot envL stC "100"
    (by decide) rfl rfl rfl
  exact ⟨h.1, h.2.1 999, h.2.2.1 100 (by decide), h.2.2.2.2⟩

/-- C8: in new-member moderation, when the warn counter incremented after a successful
removal reaches or exceeds the chat's limit, the engine attempts to remove the
originating actor, and the warn-counter entry for (chat, actor) is deleted (reset to
absent, i.e. 0) exactly when that removal succeeds. -/
theorem warn_limit_kick_reset (selfID : Int) (m : MsgCtx) (set : GroupSettings)
    (env : UserEnv) (st : Store) (u : TgUser)
    (hU : u.id ≠ selfID) (hFrom : m.fromID ≠ set.creator) (hAct : set.isActive = true)
    (hMemErr : env.sIsMemberErr = false) (hWl : st.whitelist m.chatID u.id = false)
    (hKick : kickUser env.kickBotApi = (true, none)) (hIncr : env.incrErr = false)
    (hLim : (st.warns m.chatID m.fromID + 1 : Int) ≥ set.limit)
    (hDel : env.delWarnErr = false) (hDe2 : env.deactErr2 = false) :
    Action.kickAttempt m.chatID m.fromID ∈ (processUser selfID m set env st u).2.1 ∧
    ((processUser selfID m set env st u).1.warns m.chatID m.fromID = 0 ↔
      kickUser env.kickHumanApi = (true, none)) := by
  unfold processUser warnPhase
  simp only [if_neg hU, if_neg hFrom, hAct, Bool.not_true, Bool.false_eq_true, if_false,
    hMemErr, hWl, hKick, hIncr]
  have hge : ((incrementMemberWarns st m.chatID m.fromID).2 : Int) ≥ set.limit := by
    simp only [incrementMemberWarns]
    push_cast
    exact hLim
  rw [if_pos hge]
  rcases hk2 : kickUser env.kickHumanApi with ⟨b2, oe2⟩
  rcases oe2 with _ | e2
  · cases b2
    · simp [hDe2, changeGroupActiveStatus, incrementMemberWarns]
    · simp [hDel, incrementMemberWarns]
  · cases b2 <;> simp [incrementMemberWarns]

/-- Witness for C8: counter 2 reaches limit 3 and is reset on success. -/
theorem warn_limit_kick_reset_witness :
    Action.kickAttempt 1 200 ∈
      (processUser 42 msgC setC uenvKick stC
        { id := 999, userName := "b", isBot := true }).2.1 ∧
    (processUser 42 msgC setC uenvKick stC
      { id := 999, userName := "b", isBot := true }).1.warns 1 200 = 0 := by
  have h := warn_limit_kick_reset 42 msgC setC uenvKick stC
    { id := 999, userName := "b", isBot := true }
    (by decide) (by decide) (by decide) (by decide) (by decide) (by decide)
    (by decide) (by decide) (by decide) (by decide)
  exact ⟨h.1, h.2.mpr (by decide)⟩

/-- C9: adding an account through the creator-introduction path is idempotent — if the
account is already whitelisted the whitelist is unchanged pointwise and no notice is
emitted, while a not-yet-listed account is added (all other memberships unchanged)
and exactly one confirmation notice is emitted. -/
theorem whitelist_add_idempotent (selfID : Int) (m : MsgCtx) (set : GroupSettings)
    (env : UserEnv) (st : Store) (u : TgUser)
    (hU : u.id ≠ selfID) (hFrom : m.fromID = set.creator) (hErr : env.sAddErr = false) :
    (st.whitelist m.chatID u.id = true →
      (∀ c w, (processUser selfID m set env st u).1.whitelist c w = st.whitelist c w) ∧
      (processUser selfID m set env st u).2.1 = []) ∧
    (st.whitelist m.chatID u.id = false →
      (processUser selfID m set env st u).1.whitelist m.chatID u.id = true ∧
      (∀ c w, ¬(c = m.chatID ∧ w = u.id) →
        (processUser selfID m set env st u).1.whitelist c w = st.whitelist c w) ∧
      (processUser selfID m set env st u).2.1 =
        [Action.whitelistNotice m.chatID m.messageID u.userName]) := by
  constructor
  · intro hw
    unfold processUser
    simp only [if_neg hU, if_pos hFrom, hErr, Bool.false_eq_true, if_false, if_pos hw]
    refine ⟨fun c w => ?_, trivial⟩
    simp only [whitelistAdd]
    split_ifs with h
    · obtain ⟨h1, h2⟩ := h
      rw [h1, h2, hw]
    · rfl
  · intro hw
    unfold processUser
    simp only [if_neg hU, if_pos hFrom, hErr, Bool.false_eq_true, if_false, hw]
    refine ⟨by simp [whitelistAdd], fun c w hne => ?_, trivial⟩
    simp only [whitelistAdd]
    rw [if_neg hne]

/-- Witness for C9: a fresh account is added with one notice. -/
theorem whitelist_add_idempotent_witness :
    (processUser 42 msgCr setC uenvWl stC
      { id := 999, userName := "b", isBot := true }).1.whitelist 1 999 = true ∧
    (processUser 42 msgCr setC uenvWl stC
      { id := 999, userName := "b", isBot := true }).2.1 =
      [Action.whitelistNotice 1 5 "b"] := by
  have h := (whitelist_add_idempotent 42 msgCr setC uenvWl stC
    { id := 999, userName := "b", isBot := true } (by decide) (by decide) (by decide)).2
    (by decide)
  exact ⟨h.1, h.2.2⟩

/-- C10: the removal and message-deletion wrappers classify a platform response with
error code 400 as permission-denied `(false, none)` regardless of the response flag or
transport error, and pass every other response through as the response flag together
with the transport error; consequently a transport error during removal (non-400)
never changes the persisted settings — it neither deactivates the chat nor counts as
a denial — in both moderation flows. -/
theorem kick_delete_classification (o : ApiOutcome) :
    (o.errorCode = 400 → kickUser o = (false, none) ∧ deleteMessage o = (false, none)) ∧
    (o.errorCode ≠ 400 → kickUser o = (o.ok, o.err) ∧ deleteMessage o = (o.ok, o.err)) ∧
    (∀ (m : MsgCtx) (env : BotMsgEnv) (st : Store) (e : String),
      env.kickApi.err = some e → env.kickApi.errorCode ≠ 400 →
      (processBotMessage m env st).1.settings = st.settings) ∧
    (∀ (selfID : Int) (m : MsgCtx) (set : GroupSettings) (env : UserEnv) (st : Store)
        (u : TgUser) (e : String),
      env.kickBotApi.err = some e → env.kickBotApi.errorCode ≠ 400 →
      (processUser selfID m set env st u).1.settings = st.settings ∧
      (processUser selfID m set env st u).1.warns = st.warns) := by
  refine ⟨fun h => ?_, fun h => ?_, ?_, ?_⟩
  · simp [kickUser, deleteMessage, h]
  · simp [kickUser, deleteMessage, h]
  · intro m env st e he hc
    have hk : kickUser env.kickApi = (env.kickApi.ok, some e) := by
      simp [kickUser, hc, he]
    unfold processBotMessage
    split_ifs
    all_goals first
      | rfl
      | (rw [hk]; cases env.kickApi.ok <;> rfl)
  · intro selfID m set env st u e he hc
    have hk : kickUser env.kickBotApi = (env.kickBotApi.ok, some e) := by
      simp [kickUser, hc, he]
    unfold processUser
    split_ifs
    all_goals first
      | exact ⟨rfl, rfl⟩
      | (rw [hk]; cases env.kickBotApi.ok <;> exact ⟨rfl, rfl⟩)

/-- Witness for C10 at concrete outcomes. -/
theorem kick_delete_classification_witness :
    kickUser apiDenied = (false, none) ∧
    (processBotMessage msgC netKickEnv stC).1.settings = stC.settings := by
  constructor
  · exact ((kick_delete_classification apiDenied).1 (by decide)).1
  · exact (kick_delete_classification apiDenied).2.2.1 msgC netKickEnv stC "net" rfl (by decide)

end Hudor
